import Mathlib

set_option linter.dupNamespace false

/-!
Shallow embedding of `pkg/kubernetes/kubernetes.go` from azp-agent-autoscaler.

The Kubernetes API is modelled as an environment (`ApiEnv`) of response
functions; every cluster interaction is recorded as an `ApiCall` event in a
trace, and every channel send is collected into a list of messages.  The
lazily cached client of `k8sClientSet` is threaded explicitly as an
`Option Clientset` value (the `wrapper.client` field).
-/

namespace AzpAgentAutoscaler

/-- Model of Go `strings.ToLower`: lower-case every character. -/
def strLower (s : String) : String := String.mk (s.data.map Char.toLower)

/-- Model of Go `strings.EqualFold` (case-insensitive string equality). -/
def eqFold (a b : String) : Bool := strLower a == strLower b

/-- Opaque model of a `rest.Config` value produced by a configuration stage. -/
structure K8sConfig where
  id : Nat
  deriving DecidableEq, Repr

/-- Opaque model of a `kubernetes.Clientset` handle. -/
structure Clientset where
  id : Nat
  deriving DecidableEq, Repr

/-- Environment consumed by `getClient`: the outcomes of the configuration
stages and of client construction (`rest.InClusterConfig`,
`clientcmd.BuildConfigFromFlags`, `kubernetes.NewForConfig`), plus the
`KUBECONFIG` / `HOME` / `USERPROFILE` environment variables. -/
structure ClientEnv where
  inClusterConfig : Except String K8sConfig
  kubeconfigEnv : String
  homeEnv : String
  userprofileEnv : String
  buildConfigFromFlags : String → Except String K8sConfig
  newForConfig : K8sConfig → Except String Clientset

/-- The three configuration stages of the fallback chain in `getClient`. -/
inductive Stage where
  | inCluster
  | kubeconfigEnvFile
  | homeDefault
  deriving DecidableEq, Repr

/-- Outcome of one `getClient` call: the returned value, the cache field
(`wrapper.client`) after the call, the configuration stages attempted in
order, and the config handed to `NewForConfig` (if any). -/
structure GetClientResult where
  result : Except String Clientset
  state : Option Clientset
  stages : List Stage
  builtWith : Option K8sConfig
  deriving Repr

/-- The home directory consulted by the last fallback stage: `HOME`, or
`USERPROFILE` (windows) when `HOME` is empty (kubernetes.go lines 34-37). -/
def homeDir (env : ClientEnv) : String :=
  if env.homeEnv == "" then env.userprofileEnv else env.homeEnv

/-- The default credentials path `HOME/.kube/config` (kubernetes.go line 38). -/
def homeConfigPath (env : ClientEnv) : String :=
  homeDir env ++ "/.kube/config"

/-- Embedding of `k8sClientSet.getClient` (kubernetes.go lines 24-50): return
the cached client if set; otherwise try in-cluster config, then the
`KUBECONFIG` path, then `$HOME/.kube/config` (falling back to `USERPROFILE`
when `HOME` is empty); build the client from the first config that succeeds
and cache it only when construction succeeds. -/
def getClient (env : ClientEnv) (cached : Option Clientset) : GetClientResult :=
  match cached with
  | some c => { result := Except.ok c, state := some c, stages := [], builtWith := none }
  | none =>
    let chain : Except String K8sConfig × List Stage :=
      match env.inClusterConfig with
      | Except.ok cfg => (Except.ok cfg, [Stage.inCluster])
      | Except.error _ =>
        match env.buildConfigFromFlags env.kubeconfigEnv with
        | Except.ok cfg => (Except.ok cfg, [Stage.inCluster, Stage.kubeconfigEnvFile])
        | Except.error _ =>
          match env.buildConfigFromFlags (homeConfigPath env) with
          | Except.ok cfg =>
            (Except.ok cfg, [Stage.inCluster, Stage.kubeconfigEnvFile, Stage.homeDefault])
          | Except.error e =>
            (Except.error ("Error initializing Kubernetes config: " ++ e),
             [Stage.inCluster, Stage.kubeconfigEnvFile, Stage.homeDefault])
    match chain with
    | (Except.error e, st) => { result := Except.error e, state := none, stages := st, builtWith := none }
    | (Except.ok cfg, st) =>
      match env.newForConfig cfg with
      | Except.ok cl => { result := Except.ok cl, state := some cl, stages := st, builtWith := some cfg }
      | Except.error e => { result := Except.error e, state := none, stages := st, builtWith := some cfg }

/-- Model of `metav1.LabelSelector` (only the data the code carries around). -/
structure LabelSelector where
  MatchLabels : List (String × String)
  deriving DecidableEq, Repr

/-- Modelled from the spec: the `Workload` descriptor type is declared in a
repository file that is not under src/; per the spec it carries `Kind`
(string tag), `Namespace`, `Name` and `PodSelector`. -/
structure Workload where
  Kind : String
  Namespace : String
  Name : String
  PodSelector : LabelSelector
  deriving DecidableEq, Repr

/-- Modelled from the spec: `WorkloadReturn` pairs an optional `Workload`
with an optional error, as sent on the resolver channel (declared in a
repository file not under src/). -/
structure WorkloadReturn where
  Resource : Option Workload
  Err : Option String
  deriving DecidableEq, Repr

/-- Modelled from the spec: `GetWorkloadReturn` builds a `WorkloadReturn`
from its two components (declared in a repository file not under src/). -/
def GetWorkloadReturn (w : Option Workload) (e : Option String) : WorkloadReturn :=
  { Resource := w, Err := e }

/-- Model of an `appsv1.StatefulSet` restricted to the fields the projection
needs. -/
structure StatefulSet where
  Namespace : String
  Name : String
  Selector : LabelSelector
  deriving DecidableEq, Repr

/-- Modelled from the spec: `GetWorkload` projects a fetched StatefulSet into
a `Workload` ("success (project the fetched object into a Workload)"); the
projection lives in a repository file not under src/. -/
def GetWorkload (sts : StatefulSet) : WorkloadReturn :=
  GetWorkloadReturn
    (some { Kind := "StatefulSet", Namespace := sts.Namespace, Name := sts.Name,
            PodSelector := sts.Selector })
    none

/-- Model of `autoscalingv1.CrossVersionObjectReference`. -/
structure CrossVersionObjectReference where
  Kind : String
  Name : String
  deriving DecidableEq, Repr

/-- Model of `autoscalingv1.HorizontalPodAutoscalerSpec` restricted to the
field the scan reads. -/
structure HorizontalPodAutoscalerSpec where
  ScaleTargetRef : CrossVersionObjectReference
  deriving DecidableEq, Repr

/-- Model of `autoscalingv1.HorizontalPodAutoscaler`. -/
structure HorizontalPodAutoscaler where
  Spec : HorizontalPodAutoscalerSpec
  deriving DecidableEq, Repr

namespace autoscalingv1

/-- Object metadata carried by a scale sub-resource, standing in for the
fields of `autoscalingv1.Scale` other than the replica counts. -/
structure ScaleObjectMeta where
  Name : String
  ResourceVersion : String
  deriving DecidableEq, Repr

/-- Model of `autoscalingv1.ScaleSpec`. -/
structure ScaleSpec where
  Replicas : Int
  deriving DecidableEq, Repr

/-- Model of `autoscalingv1.ScaleStatus`. -/
structure ScaleStatus where
  Replicas : Int
  deriving DecidableEq, Repr

/-- Model of `autoscalingv1.Scale`: the scale sub-resource value. -/
structure Scale where
  Meta : ScaleObjectMeta
  Spec : ScaleSpec
  Status : ScaleStatus
  deriving DecidableEq, Repr

end autoscalingv1

/-- Model of `corev1.Pod` (opaque record identified by name). -/
structure Pod where
  Name : String
  deriving DecidableEq, Repr

/-- Embedding of the `Pods` wrapper (kubernetes.go lines 140-143): a
possibly-nil pod slice together with a possibly-nil error. -/
structure Pods where
  Pods : Option (List Pod)
  Err : Option String
  deriving DecidableEq, Repr

/-- Model of a `corev1.EnvVarSource` (the indirect `ValueFrom` source). -/
structure EnvVarSource where
  FieldPath : String
  deriving DecidableEq, Repr

/-- Model of `corev1.EnvVar`. -/
structure EnvVar where
  Name : String
  Value : String
  ValueFrom : Option EnvVarSource
  deriving DecidableEq, Repr

/-- Embedding of `GetEnvValue` (kubernetes.go lines 132-137). -/
def GetEnvValue (env : EnvVar) : String × Option String :=
  if env.Value != "" then (env.Value, none)
  else ("", some ("Error getting value for environment variable " ++ env.Name))

/-- One cluster-facing interaction, recorded in a trace. -/
inductive ApiCall where
  | clientAcquisition
  | getStatefulSetCall (ns name : String)
  | listHPACall (ns : String)
  | getScaleCall (ns name : String)
  | updateScaleCall (ns name : String) (scale : autoscalingv1.Scale)
  | listPodsCall (ns selector : String)
  deriving DecidableEq, Repr

/-- Environment of cluster responses consumed by the operations: each field
gives the cluster's answer to the corresponding API call, and
`FormatLabelSelector` stands for `apimachinery.FormatLabelSelector`. -/
structure ApiEnv where
  clientEnv : ClientEnv
  statefulSetGet : String → String → Except String (Option StatefulSet)
  hpaList : String → Except String (List HorizontalPodAutoscaler)
  scaleGet : String → String → Except String autoscalingv1.Scale
  scaleUpdate : String → String → autoscalingv1.Scale → Option String
  podsList : String → String → Except String (List Pod)
  FormatLabelSelector : LabelSelector → String

/-- Result of an asynchronous operation: the messages sent on the caller's
channel, the client cache afterwards, and the trace of cluster interactions. -/
structure AsyncResult (α : Type) where
  messages : List α
  cache : Option Clientset
  trace : List ApiCall
  deriving Repr

/-- Result of `Scale`: the returned error, the workload value the caller's
pointer refers to after the call, the client cache afterwards, and the trace. -/
structure ScaleResult where
  err : Option String
  resource : Workload
  cache : Option Clientset
  trace : List ApiCall
  deriving Repr

/-- A `k8sClient.getClient()` invocation as the operations perform it: runs
`getClient` on the current cache and records the acquisition in the trace. -/
def runGetClient (env : ApiEnv) (cached : Option Clientset) :
    Except String Clientset × Option Clientset × List ApiCall :=
  let r := getClient env.clientEnv cached
  (r.result, r.state, [ApiCall.clientAcquisition])

/-- Embedding of `getStatefulSet` (kubernetes.go lines 61-74). -/
def getStatefulSet (env : ApiEnv) (cached : Option Clientset) (ns name : String) :
    WorkloadReturn × Option Clientset × List ApiCall :=
  match runGetClient env cached with
  | (Except.error e, st, tr) => (GetWorkloadReturn none (some e), st, tr)
  | (Except.ok _, st, tr) =>
    match env.statefulSetGet ns name with
    | Except.error e =>
      (GetWorkloadReturn none (some e), st, tr ++ [ApiCall.getStatefulSetCall ns name])
    | Except.ok none =>
      (GetWorkloadReturn none
        (some ("Could not find statefulset/" ++ name ++ " in namespace " ++ ns)),
       st, tr ++ [ApiCall.getStatefulSetCall ns name])
    | Except.ok (some sts) =>
      (GetWorkload sts, st, tr ++ [ApiCall.getStatefulSetCall ns name])

/-- Embedding of `GetK8sWorkload` (kubernetes.go lines 53-59). -/
def GetK8sWorkload (env : ApiEnv) (cached : Option Clientset) (kind ns name : String) :
    AsyncResult WorkloadReturn :=
  if eqFold kind "StatefulSet" then
    match getStatefulSet env cached ns name with
    | (r, st, tr) => { messages := [r], cache := st, trace := tr }
  else
    { messages := [GetWorkloadReturn none (some ("Resource kind " ++ kind ++ " is not implemented"))],
      cache := cached, trace := [] }

/-- The scan condition of the loop in `VerifyNoHorizontalPodAutoscaler`
(kubernetes.go line 89): case-insensitive kind match, exact name match. -/
def hpaMatches (kind name : String) (hpa : HorizontalPodAutoscaler) : Bool :=
  eqFold hpa.Spec.ScaleTargetRef.Kind kind && hpa.Spec.ScaleTargetRef.Name == name

/-- The conflict message built at kubernetes.go line 90. -/
def hpaConflictMsg (kind name : String) : String :=
  "Error: " ++ strLower kind ++ "/" ++ name ++
    " cannot have a HorizontalPodAutoscaler attached for azp-agent-autoscaler to work"

/-- Embedding of `VerifyNoHorizontalPodAutoscaler` (kubernetes.go lines
77-96): the first-match loop over `hpas.Items` is `List.find?`. -/
def VerifyNoHorizontalPodAutoscaler (env : ApiEnv) (cached : Option Clientset)
    (kind ns name : String) : AsyncResult (Option String) :=
  match runGetClient env cached with
  | (Except.error e, st, tr) => { messages := [some e], cache := st, trace := tr }
  | (Except.ok _, st, tr) =>
    match env.hpaList ns with
    | Except.error e =>
      { messages := [some e], cache := st, trace := tr ++ [ApiCall.listHPACall ns] }
    | Except.ok hpas =>
      match hpas.find? (hpaMatches kind name) with
      | some _ =>
        { messages := [some (hpaConflictMsg kind name)], cache := st,
          trace := tr ++ [ApiCall.listHPACall ns] }
      | none =>
        { messages := [none], cache := st, trace := tr ++ [ApiCall.listHPACall ns] }

/-- Embedding of `Scale` (kubernetes.go lines 99-129): acquire the client,
dispatch on kind, fetch the scale sub-resource, short-circuit when the
replica count already matches, otherwise update. -/
def Scale (env : ApiEnv) (cached : Option Clientset) (resource : Workload)
    (replicas : Int) : ScaleResult :=
  match runGetClient env cached with
  | (Except.error e, st, tr) =>
    { err := some e, resource := resource, cache := st, trace := tr }
  | (Except.ok _, st, tr) =>
    if eqFold resource.Kind "StatefulSet" then
      match env.scaleGet resource.Namespace resource.Name with
      | Except.error e =>
        { err := some e, resource := resource, cache := st,
          trace := tr ++ [ApiCall.getScaleCall resource.Namespace resource.Name] }
      | Except.ok scale =>
        if scale.Spec.Replicas == replicas then
          { err := none, resource := resource, cache := st,
            trace := tr ++ [ApiCall.getScaleCall resource.Namespace resource.Name] }
        else
          let upd : autoscalingv1.Scale :=
            { scale with Spec := { scale.Spec with Replicas := replicas } }
          { err := env.scaleUpdate resource.Namespace resource.Name upd,
            resource := resource, cache := st,
            trace := tr ++ [ApiCall.getScaleCall resource.Namespace resource.Name,
                            ApiCall.updateScaleCall resource.Namespace resource.Name upd] }
    else
      { err := some ("Resource kind " ++ resource.Kind ++ " is not implemented"),
        resource := resource, cache := st, trace := tr }

/-- Embedding of `GetPods` (kubernetes.go lines 146-162). -/
def GetPods (env : ApiEnv) (cached : Option Clientset) (workload : Workload) :
    AsyncResult Pods :=
  match runGetClient env cached with
  | (Except.error e, st, tr) =>
    { messages := [{ Pods := none, Err := some e }], cache := st, trace := tr }
  | (Except.ok _, st, tr) =>
    let sel := env.FormatLabelSelector workload.PodSelector
    match env.podsList workload.Namespace sel with
    | Except.error e =>
      { messages := [{ Pods := none, Err := some e }], cache := st,
        trace := tr ++ [ApiCall.listPodsCall workload.Namespace sel] }
    | Except.ok items =>
      { messages := [{ Pods := some items, Err := none }], cache := st,
        trace := tr ++ [ApiCall.listPodsCall workload.Namespace sel] }

/-! Concrete fixtures used to instantiate the theorems below. -/

/-- A client environment whose in-cluster stage succeeds. -/
def okClientEnv : ClientEnv :=
  { inClusterConfig := Except.ok ⟨0⟩, kubeconfigEnv := "", homeEnv := "",
    userprofileEnv := "",
    buildConfigFromFlags := fun _ => Except.error "no file",
    newForConfig := fun _ => Except.ok ⟨7⟩ }

/-- A client environment in which every configuration stage fails. -/
def failClientEnv : ClientEnv :=
  { inClusterConfig := Except.error "not in cluster", kubeconfigEnv := "",
    homeEnv := "/root", userprofileEnv := "",
    buildConfigFromFlags := fun _ => Except.error "no file",
    newForConfig := fun _ => Except.ok ⟨7⟩ }

/-- Sample pod selector. -/
def sampleSelector : LabelSelector := { MatchLabels := [("app", "agent")] }

/-- Sample StatefulSet workload descriptor. -/
def sampleWorkload : Workload :=
  { Kind := "StatefulSet", Namespace := "ns", Name := "agents",
    PodSelector := sampleSelector }

/-- Sample workload of an unsupported kind. -/
def deploymentWorkload : Workload :=
  { Kind := "Deployment", Namespace := "ns", Name := "agents",
    PodSelector := sampleSelector }

/-- Sample scale sub-resource with three current replicas. -/
def sampleScale3 : autoscalingv1.Scale :=
  { Meta := { Name := "agents", ResourceVersion := "42" },
    Spec := { Replicas := 3 }, Status := { Replicas := 3 } }

/-- Sample cluster environment in which every call succeeds. -/
def sampleEnv : ApiEnv :=
  { clientEnv := okClientEnv,
    statefulSetGet := fun _ _ =>
      Except.ok (some { Namespace := "ns", Name := "agents", Selector := sampleSelector }),
    hpaList := fun _ => Except.ok [],
    scaleGet := fun _ _ => Except.ok sampleScale3,
    scaleUpdate := fun _ _ _ => none,
    podsList := fun _ _ => Except.ok [{ Name := "agents-0" }],
    FormatLabelSelector := fun _ => "app=agent" }

/-- Sample environment whose client acquisition fails. -/
def failEnv : ApiEnv := { sampleEnv with clientEnv := failClientEnv }

/-- C5: with no cached client, `getClient` attempts the configuration stages
in the fixed order in-cluster, `KUBECONFIG` path, home-directory default;
each later stage runs only when the prior one failed, and the first stage to
succeed supplies the config handed to `NewForConfig`. -/
theorem getClient_fallback_chain (env : ClientEnv) (cached : Option Clientset)
    (hnone : cached = none) :
    (∀ cfg, env.inClusterConfig = Except.ok cfg →
      (getClient env cached).stages = [Stage.inCluster] ∧
      (getClient env cached).builtWith = some cfg ∧
      (getClient env cached).result = env.newForConfig cfg) ∧
    (∀ e1 cfg, env.inClusterConfig = Except.error e1 →
      env.buildConfigFromFlags env.kubeconfigEnv = Except.ok cfg →
      (getClient env cached).stages = [Stage.inCluster, Stage.kubeconfigEnvFile] ∧
      (getClient env cached).builtWith = some cfg ∧
      (getClient env cached).result = env.newForConfig cfg) ∧
    (∀ e1 e2 cfg, env.inClusterConfig = Except.error e1 →
      env.buildConfigFromFlags env.kubeconfigEnv = Except.error e2 →
      env.buildConfigFromFlags (homeConfigPath env) = Except.ok cfg →
      (getClient env cached).stages
        = [Stage.inCluster, Stage.kubeconfigEnvFile, Stage.homeDefault] ∧
      (getClient env cached).builtWith = some cfg ∧
      (getClient env cached).result = env.newForConfig cfg) ∧
    (∀ e1 e2 e3, env.inClusterConfig = Except.error e1 →
      env.buildConfigFromFlags env.kubeconfigEnv = Except.error e2 →
      env.buildConfigFromFlags (homeConfigPath env) = Except.error e3 →
      (getClient env cached).builtWith = none ∧
      (getClient env cached).result
        = Except.error ("Error initializing Kubernetes config: " ++ e3)) := by
  subst hnone
  refine ⟨?_, ?_, ?_, ?_⟩
  · intro cfg h
    cases h2 : env.newForConfig cfg <;> simp [getClient, h, h2]
  · intro e1 cfg h1 h2
    cases h3 : env.newForConfig cfg <;> simp [getClient, h1, h2, h3]
  · intro e1 e2 cfg h1 h2 h3
    cases h4 : env.newForConfig cfg <;> simp [getClient, h1, h2, h3, h4]
  · intro e1 e2 e3 h1 h2 h3
    simp [getClient, h1, h2, h3]

/-- C5 witness: on `okClientEnv` the chain stops at the in-cluster stage and
that config builds the client. -/
theorem getClient_fallback_chain_witness :
    (getClient okClientEnv none).stages = [Stage.inCluster] ∧
    (getClient okClientEnv none).builtWith = some ⟨0⟩ ∧
    (getClient okClientEnv none).result = okClientEnv.newForConfig ⟨0⟩ :=
  (getClient_fallback_chain okClientEnv none rfl).1 ⟨0⟩ rfl

/-- An uncached `getClient` call always attempts the in-cluster stage first. -/
lemma getClient_none_stages_head (env : ClientEnv) :
    (getClient env none).stages.head? = some Stage.inCluster := by
  cases h1 : env.inClusterConfig with
  | ok cfg => cases h2 : env.newForConfig cfg <;> simp [getClient, h1, h2]
  | error e1 =>
    cases h2 : env.buildConfigFromFlags env.kubeconfigEnv with
    | ok cfg => cases h3 : env.newForConfig cfg <;> simp [getClient, h1, h2, h3]
    | error e2 =>
      cases h3 : env.buildConfigFromFlags (homeConfigPath env) with
      | ok cfg => cases h4 : env.newForConfig cfg <;> simp [getClient, h1, h2, h3, h4]
      | error e3 => simp [getClient, h1, h2, h3]

/-- The cache field after a `getClient` call holds exactly the successfully
returned handle: `some c` on `ok c`, `none` on error. -/
lemma getClient_state_of_result (env : ClientEnv) (cached : Option Clientset) :
    match (getClient env cached).result with
    | Except.ok c => (getClient env cached).state = some c
    | Except.error _ => (getClient env cached).state = none := by
  cases cached with
  | some c => simp [getClient]
  | none =>
    cases h1 : env.inClusterConfig with
    | ok cfg => cases h2 : env.newForConfig cfg <;> simp [getClient, h1, h2]
    | error e1 =>
      cases h2 : env.buildConfigFromFlags env.kubeconfigEnv with
      | ok cfg => cases h3 : env.newForConfig cfg <;> simp [getClient, h1, h2, h3]
      | error e2 =>
        cases h3 : env.buildConfigFromFlags (homeConfigPath env) with
        | ok cfg => cases h4 : env.newForConfig cfg <;> simp [getClient, h1, h2, h3, h4]
        | error e3 => simp [getClient, h1, h2, h3]

/-- C6: `getClient` caches only on success: after an error the stored client
stays unset and a later call starts the chain again at the in-cluster stage;
after a success every later call, under any environment, returns the same
cached handle with no error and runs no configuration stage. -/
theorem getClient_caches_only_success (env : ClientEnv) (cached : Option Clientset) :
    (∀ e, (getClient env cached).result = Except.error e →
      (getClient env cached).state = none ∧
      ∀ env2 : ClientEnv,
        (getClient env2 ((getClient env cached).state)).stages.head? = some Stage.inCluster) ∧
    (∀ c, (getClient env cached).result = Except.ok c →
      (getClient env cached).state = some c ∧
      ∀ env2 : ClientEnv,
        getClient env2 ((getClient env cached).state)
          = { result := Except.ok c, state := some c, stages := [], builtWith := none }) := by
  have hcase := getClient_state_of_result env cached
  constructor
  · intro e h
    rw [h] at hcase
    have hst : (getClient env cached).state = none := hcase
    refine ⟨hst, ?_⟩
    intro env2
    rw [hst]
    exact getClient_none_stages_head env2
  · intro c h
    rw [h] at hcase
    have hst : (getClient env cached).state = some c := hcase
    refine ⟨hst, ?_⟩
    intro env2
    rw [hst]
    rfl

/-- C6 witness: a fully failing chain leaves the cache unset, and a
successful call caches the handle so the next call performs no stage. -/
theorem getClient_caches_only_success_witness :
    (getClient failClientEnv none).state = none ∧
    getClient okClientEnv ((getClient okClientEnv none).state)
      = { result := Except.ok ⟨7⟩, state := some ⟨7⟩, stages := [], builtWith := none } := by
  constructor
  · exact (((getClient_caches_only_success failClientEnv none).1
      "Error initializing Kubernetes config: no file" rfl)).1
  · exact ((getClient_caches_only_success okClientEnv none).2 ⟨7⟩ rfl).2 okClientEnv

/-- C10: `GetEnvValue` returns the literal value with no error exactly when
the value is non-empty; otherwise it returns the empty string and an error
naming the variable, regardless of any indirect `ValueFrom` source. -/
theorem GetEnvValue_value_or_error (env : EnvVar) :
    (GetEnvValue env = (env.Value, none) ↔ env.Value ≠ "") ∧
    (env.Value = "" →
      GetEnvValue env
        = ("", some ("Error getting value for environment variable " ++ env.Name))) := by
  by_cases h : env.Value = ""
  · constructor
    · simp [GetEnvValue, h]
    · intro _; simp [GetEnvValue, h]
  · constructor
    · simp [GetEnvValue, h]
    · intro h2; exact absurd h2 h

/-- C10 witness: a variable supplied only through `ValueFrom` is reported as
an error naming the variable. -/
theorem GetEnvValue_value_or_error_witness :
    GetEnvValue { Name := "AZP_TOKEN", Value := "",
                  ValueFrom := some { FieldPath := "secret" } }
      = ("", some "Error getting value for environment variable AZP_TOKEN") :=
  (GetEnvValue_value_or_error
    { Name := "AZP_TOKEN", Value := "", ValueFrom := some { FieldPath := "secret" } }).2 rfl

/-- C1: for a workload of a supported kind, once the client is available
`Scale` first fetches the scale sub-resource; when the fetched replica count
already equals the desired one it returns no error and performs no update
write, and otherwise it issues exactly one update, with the replica count set
to the desired value, returning that update's error verbatim. -/
theorem Scale_fetch_then_conditional_update (env : ApiEnv) (cached : Option Clientset)
    (c : Clientset) (resource : Workload) (replicas : Int) (scale : autoscalingv1.Scale)
    (hclient : (getClient env.clientEnv cached).result = Except.ok c)
    (hkind : eqFold resource.Kind "StatefulSet" = true)
    (hget : env.scaleGet resource.Namespace resource.Name = Except.ok scale) :
    (scale.Spec.Replicas = replicas →
      (Scale env cached resource replicas).err = none ∧
      (Scale env cached resource replicas).trace =
        [ApiCall.clientAcquisition,
         ApiCall.getScaleCall resource.Namespace resource.Name]) ∧
    (scale.Spec.Replicas ≠ replicas →
      (Scale env cached resource replicas).err =
        env.scaleUpdate resource.Namespace resource.Name
          { scale with Spec := { scale.Spec with Replicas := replicas } } ∧
      (Scale env cached resource replicas).trace =
        [ApiCall.clientAcquisition,
         ApiCall.getScaleCall resource.Namespace resource.Name,
         ApiCall.updateScaleCall resource.Namespace resource.Name
           { scale with Spec := { scale.Spec with Replicas := replicas } }]) := by
  constructor
  · intro heq
    simp [Scale, runGetClient, hclient, hkind, hget, heq]
  · intro hne
    simp [Scale, runGetClient, hclient, hkind, hget, hne]

/-- C1 witness: current replicas 3, desired 3 gives no error and no update
write; the trace holds only the acquisition and the fetch. -/
theorem Scale_fetch_then_conditional_update_witness :
    (Scale sampleEnv (some ⟨7⟩) sampleWorkload 3).err = none ∧
    (Scale sampleEnv (some ⟨7⟩) sampleWorkload 3).trace =
      [ApiCall.clientAcquisition, ApiCall.getScaleCall "ns" "agents"] :=
  (Scale_fetch_then_conditional_update sampleEnv (some ⟨7⟩) ⟨7⟩ sampleWorkload 3
    sampleScale3 rfl (by decide) rfl).1 rfl

/-- C3: each of the three asynchronous operations sends exactly one message
on the caller-supplied channel, on every success and failure path. -/
theorem async_ops_send_exactly_one_message (env : ApiEnv) (cached : Option Clientset)
    (kind ns name : String) (workload : Workload) :
    (GetK8sWorkload env cached kind ns name).messages.length = 1 ∧
    (VerifyNoHorizontalPodAutoscaler env cached kind ns name).messages.length = 1 ∧
    (GetPods env cached workload).messages.length = 1 := by
  refine ⟨?_, ?_, ?_⟩
  · cases hk : eqFold kind "StatefulSet" with
    | false => simp [GetK8sWorkload, hk]
    | true =>
      cases hc : (getClient env.clientEnv cached).result with
      | error e => simp [GetK8sWorkload, getStatefulSet, runGetClient, hk, hc]
      | ok c =>
        cases hs : env.statefulSetGet ns name with
        | error e => simp [GetK8sWorkload, getStatefulSet, runGetClient, hk, hc, hs]
        | ok o =>
          cases o <;> simp [GetK8sWorkload, getStatefulSet, runGetClient, hk, hc, hs]
  · cases hc : (getClient env.clientEnv cached).result with
    | error e => simp [VerifyNoHorizontalPodAutoscaler, runGetClient, hc]
    | ok c =>
      cases hl : env.hpaList ns with
      | error e => simp [VerifyNoHorizontalPodAutoscaler, runGetClient, hc, hl]
      | ok hpas =>
        cases hf : hpas.find? (hpaMatches kind name) <;>
          simp [VerifyNoHorizontalPodAutoscaler, runGetClient, hc, hl, hf]
  · cases hc : (getClient env.clientEnv cached).result with
    | error e => simp [GetPods, runGetClient, hc]
    | ok c =>
      cases hp : env.podsList workload.Namespace
          (env.FormatLabelSelector workload.PodSelector) with
      | error e => simp [GetPods, runGetClient, hc, hp]
      | ok items => simp [GetPods, runGetClient, hc, hp]

/-- Sample environment whose StatefulSet fetch returns nil with no error. -/
def missingEnv : ApiEnv := { sampleEnv with statefulSetGet := fun _ _ => Except.ok none }

/-- C7: for a supported-kind resolve with the client available, an API error
is delivered verbatim, a nil-but-no-error fetch yields a synthesized
not-found error naming the resource and its namespace, and a successful
fetch delivers the projected Workload; exactly one of error and Workload is
delivered. -/
theorem getStatefulSet_three_outcomes (env : ApiEnv) (cached : Option Clientset)
    (c : Clientset) (ns name : String)
    (hclient : (getClient env.clientEnv cached).result = Except.ok c) :
    (∀ e, env.statefulSetGet ns name = Except.error e →
      (getStatefulSet env cached ns name).1 = GetWorkloadReturn none (some e)) ∧
    (env.statefulSetGet ns name = Except.ok none →
      (getStatefulSet env cached ns name).1 =
        GetWorkloadReturn none
          (some ("Could not find statefulset/" ++ name ++ " in namespace " ++ ns))) ∧
    (∀ sts, env.statefulSetGet ns name = Except.ok (some sts) →
      (getStatefulSet env cached ns name).1 = GetWorkload sts ∧
      (getStatefulSet env cached ns name).1.Err = none ∧
      (getStatefulSet env cached ns name).1.Resource =
        some { Kind := "StatefulSet", Namespace := sts.Namespace, Name := sts.Name,
               PodSelector := sts.Selector }) ∧
    (((getStatefulSet env cached ns name).1.Err = none ∧
        (getStatefulSet env cached ns name).1.Resource ≠ none) ∨
      ((getStatefulSet env cached ns name).1.Err ≠ none ∧
        (getStatefulSet env cached ns name).1.Resource = none)) := by
  refine ⟨?_, ?_, ?_, ?_⟩
  · intro e he
    simp [getStatefulSet, runGetClient, hclient, he, GetWorkloadReturn]
  · intro hn
    simp [getStatefulSet, runGetClient, hclient, hn, GetWorkloadReturn]
  · intro sts hs
    simp [getStatefulSet, runGetClient, hclient, hs, GetWorkload, GetWorkloadReturn]
  · cases hs : env.statefulSetGet ns name with
    | error e =>
      right
      simp [getStatefulSet, runGetClient, hclient, hs, GetWorkloadReturn]
    | ok o =>
      cases o with
      | none =>
        right
        simp [getStatefulSet, runGetClient, hclient, hs, GetWorkloadReturn]
      | some sts =>
        left
        simp [getStatefulSet, runGetClient, hclient, hs, GetWorkload, GetWorkloadReturn]

/-- C7 witness: an empty fetch with no error for `("ns","missing")` yields
the synthesized not-found error naming both. -/
theorem getStatefulSet_three_outcomes_witness :
    (getStatefulSet missingEnv (some ⟨7⟩) "ns" "missing").1
      = GetWorkloadReturn none
          (some ("Could not find statefulset/" ++ "missing" ++ " in namespace " ++ "ns")) :=
  (getStatefulSet_three_outcomes missingEnv (some ⟨7⟩) ⟨7⟩ "ns" "missing" rfl).2.1 rfl

/-- C8: `GetPods` sends nil pods with the error on client-acquisition or
list failure, and on success sends the listed pod slice with nil error,
listing pods in the workload's namespace under the selector string built
from its `PodSelector`. -/
theorem GetPods_outcomes (env : ApiEnv) (cached : Option Clientset) (workload : Workload) :
    (∀ e, (getClient env.clientEnv cached).result = Except.error e →
      (GetPods env cached workload).messages = [{ Pods := none, Err := some e }]) ∧
    (∀ c, (getClient env.clientEnv cached).result = Except.ok c →
      (∀ e, env.podsList workload.Namespace (env.FormatLabelSelector workload.PodSelector)
          = Except.error e →
        (GetPods env cached workload).messages = [{ Pods := none, Err := some e }]) ∧
      (∀ items, env.podsList workload.Namespace (env.FormatLabelSelector workload.PodSelector)
          = Except.ok items →
        (GetPods env cached workload).messages = [{ Pods := some items, Err := none }] ∧
        (GetPods env cached workload).trace =
          [ApiCall.clientAcquisition,
           ApiCall.listPodsCall workload.Namespace
             (env.FormatLabelSelector workload.PodSelector)])) := by
  refine ⟨?_, ?_⟩
  · intro e he
    simp [GetPods, runGetClient, he]
  · intro c hc
    refine ⟨?_, ?_⟩
    · intro e he
      simp [GetPods, runGetClient, hc, he]
    · intro items hi
      simp [GetPods, runGetClient, hc, hi]

/-- C8 witness: a successful list sends the pod slice with nil error and the
trace records the list call with the formatted selector. -/
theorem GetPods_outcomes_witness :
    (GetPods sampleEnv (some ⟨7⟩) sampleWorkload).messages
      = [{ Pods := some [{ Name := "agents-0" }], Err := none }] ∧
    (GetPods sampleEnv (some ⟨7⟩) sampleWorkload).trace
      = [ApiCall.clientAcquisition, ApiCall.listPodsCall "ns" "app=agent"] :=
  ((GetPods_outcomes sampleEnv (some ⟨7⟩) sampleWorkload).2 ⟨7⟩ rfl).2
    [{ Name := "agents-0" }] rfl

/-- The scale value written by the update branch of `Scale`. -/
def updScale5 : autoscalingv1.Scale :=
  { Meta := { Name := "agents", ResourceVersion := "42" },
    Spec := { Replicas := 5 }, Status := { Replicas := 3 } }

/-- C9: `Scale` leaves every field of the passed Workload descriptor
unchanged, and any update write it issues targets the workload's namespace
and name and carries the freshly fetched scale value changed only in its
spec replica count. -/
theorem Scale_leaves_workload_unchanged (env : ApiEnv) (cached : Option Clientset)
    (resource : Workload) (replicas : Int) :
    ((Scale env cached resource replicas).resource.Kind = resource.Kind ∧
      (Scale env cached resource replicas).resource.Namespace = resource.Namespace ∧
      (Scale env cached resource replicas).resource.Name = resource.Name ∧
      (Scale env cached resource replicas).resource.PodSelector = resource.PodSelector) ∧
    (∀ fetched, env.scaleGet resource.Namespace resource.Name = Except.ok fetched →
      ∀ ns n sc, ApiCall.updateScaleCall ns n sc ∈ (Scale env cached resource replicas).trace →
        ns = resource.Namespace ∧ n = resource.Name ∧
        sc.Meta = fetched.Meta ∧ sc.Status = fetched.Status ∧
        sc.Spec.Replicas = replicas) := by
  have hres : (Scale env cached resource replicas).resource = resource := by
    cases hc : (getClient env.clientEnv cached).result with
    | error e => simp [Scale, runGetClient, hc]
    | ok c =>
      cases hk : eqFold resource.Kind "StatefulSet" with
      | false => simp [Scale, runGetClient, hc, hk]
      | true =>
        cases hs : env.scaleGet resource.Namespace resource.Name with
        | error e => simp [Scale, runGetClient, hc, hk, hs]
        | ok scale =>
          by_cases hr : scale.Spec.Replicas = replicas <;>
            simp [Scale, runGetClient, hc, hk, hs, hr]
  refine ⟨by rw [hres]; exact ⟨rfl, rfl, rfl, rfl⟩, ?_⟩
  intro fetched hget ns n sc hmem
  cases hc : (getClient env.clientEnv cached).result with
  | error e => simp [Scale, runGetClient, hc] at hmem
  | ok c =>
    cases hk : eqFold resource.Kind "StatefulSet" with
    | false => simp [Scale, runGetClient, hc, hk] at hmem
    | true =>
      by_cases hr : fetched.Spec.Replicas = replicas
      · simp [Scale, runGetClient, hc, hk, hget, hr] at hmem
      · simp [Scale, runGetClient, hc, hk, hget, hr] at hmem
        obtain ⟨hns, hn, hsc⟩ := hmem
        subst hns; subst hn; subst hsc
        exact ⟨rfl, rfl, rfl, rfl, rfl⟩

/-- C9 witness: scaling the sample workload from 3 to 5 returns the
descriptor unchanged and writes the fetched scale with only the spec
replica count set to 5. -/
theorem Scale_leaves_workload_unchanged_witness :
    (Scale sampleEnv (some ⟨7⟩) sampleWorkload 5).resource.Kind = "StatefulSet" ∧
    updScale5.Meta = sampleScale3.Meta ∧ updScale5.Status = sampleScale3.Status ∧
    updScale5.Spec.Replicas = 5 := by
  have h := Scale_leaves_workload_unchanged sampleEnv (some ⟨7⟩) sampleWorkload 5
  have h2 := h.2 sampleScale3 rfl "ns" "agents" updScale5 (by decide)
  exact ⟨h.1.1, h2.2.2.1, h2.2.2.2.1, h2.2.2.2.2⟩

/-- C2 counterexample: with every configuration stage failing and no cached
client, `Scale` on the unsupported kind "Deployment" performs a client
acquisition and returns the configuration error, not the unsupported-kind
error. -/
theorem Scale_unsupported_kind_still_acquires_client :
    ApiCall.clientAcquisition ∈ (Scale failEnv none deploymentWorkload 5).trace ∧
    (Scale failEnv none deploymentWorkload 5).err
      = some "Error initializing Kubernetes config: no file" ∧
    (Scale failEnv none deploymentWorkload 5).err
      ≠ some "Resource kind Deployment is not implemented" := by
  decide

/-- C2 amended: for a kind not case-insensitively equal to "StatefulSet",
`GetK8sWorkload` sends the unsupported-kind error with no client acquisition
and no API call; `Scale` first acquires a client — returning the acquisition
error verbatim when that fails — and otherwise returns the unsupported-kind
error, with the acquisition as its only recorded interaction. -/
theorem unsupported_kind_dispatch (env : ApiEnv) (cached : Option Clientset)
    (kind ns name : String) (resource : Workload) (replicas : Int)
    (hkind : eqFold kind "StatefulSet" = false)
    (hrkind : eqFold resource.Kind "StatefulSet" = false) :
    (GetK8sWorkload env cached kind ns name).messages
        = [GetWorkloadReturn none (some ("Resource kind " ++ kind ++ " is not implemented"))] ∧
    (GetK8sWorkload env cached kind ns name).trace = [] ∧
    (GetK8sWorkload env cached kind ns name).cache = cached ∧
    (Scale env cached resource replicas).trace = [ApiCall.clientAcquisition] ∧
    (∀ e, (getClient env.clientEnv cached).result = Except.error e →
      (Scale env cached resource replicas).err = some e) ∧
    (∀ c, (getClient env.clientEnv cached).result = Except.ok c →
      (Scale env cached resource replicas).err
        = some ("Resource kind " ++ resource.Kind ++ " is not implemented")) := by
  refine ⟨?_, ?_, ?_, ?_, ?_, ?_⟩
  · simp [GetK8sWorkload, hkind, GetWorkloadReturn]
  · simp [GetK8sWorkload, hkind]
  · simp [GetK8sWorkload, hkind]
  · cases hc : (getClient env.clientEnv cached).result <;>
      simp [Scale, runGetClient, hc, hrkind]
  · intro e he
    simp [Scale, runGetClient, he]
  · intro c hc
    simp [Scale, runGetClient, hc, hrkind]

/-- C2 amended witness: resolving kind "Deployment" sends only the
unsupported-kind message with an empty trace, while `Scale` under a failing
chain records the acquisition and returns the configuration error. -/
theorem unsupported_kind_dispatch_witness :
    (GetK8sWorkload failEnv none "Deployment" "ns" "agents").messages
        = [GetWorkloadReturn none (some ("Resource kind " ++ "Deployment" ++ " is not implemented"))] ∧
    (GetK8sWorkload failEnv none "Deployment" "ns" "agents").trace = [] ∧
    (Scale failEnv none deploymentWorkload 5).trace = [ApiCall.clientAcquisition] ∧
    (Scale failEnv none deploymentWorkload 5).err
      = some "Error initializing Kubernetes config: no file" := by
  have h := unsupported_kind_dispatch failEnv none "Deployment" "ns" "agents"
    deploymentWorkload 5 (by decide) (by decide)
  exact ⟨h.1, h.2.1, h.2.2.2.1, h.2.2.2.2.1 "Error initializing Kubernetes config: no file" rfl⟩

/-- The first list element satisfying a scan predicate is found regardless
of what follows it. -/
lemma find?_first {α : Type} (p : α → Bool) (l1 : List α) (a : α) (l2 : List α)
    (h1 : ∀ x ∈ l1, p x = false) (ha : p a = true) :
    (l1 ++ a :: l2).find? p = some a := by
  induction l1 with
  | nil => simp [List.find?_cons_of_pos, ha]
  | cons x xs ih =>
    have hx : p x = false := h1 x (List.mem_cons_self x xs)
    simp only [List.cons_append]
    rw [List.find?_cons_of_neg _ (by simp [hx])]
    exact ih (fun y hy => h1 y (List.mem_cons_of_mem x hy))

/-- Autoscaler policy targeting the given kind and name. -/
def hpaFor (k n : String) : HorizontalPodAutoscaler :=
  { Spec := { ScaleTargetRef := { Kind := k, Name := n } } }

/-- Sample environment whose autoscaler list holds a non-matching policy, a
case-differing match, and a later exact-kind match. -/
def hpaEnv : ApiEnv :=
  { sampleEnv with
    hpaList := fun _ => Except.ok
      [hpaFor "StatefulSet" "other", hpaFor "statefulset" "agents",
       hpaFor "StatefulSet" "agents"] }

/-- C4: with the client available, the autoscaler scan stops at the first
listed policy whose target kind matches case-insensitively and whose target
name matches exactly, sending the conflict error, independently of later
elements; with no matching policy it sends nil; matching requires exact name
equality and only case-insensitive kind equality. -/
theorem VerifyNoHPA_first_match (env : ApiEnv) (cached : Option Clientset)
    (c : Clientset) (kind ns name : String)
    (hclient : (getClient env.clientEnv cached).result = Except.ok c) :
    (∀ l1 targ l2, env.hpaList ns = Except.ok (l1 ++ targ :: l2) →
      (∀ hpa ∈ l1, hpaMatches kind name hpa = false) →
      hpaMatches kind name targ = true →
      (VerifyNoHorizontalPodAutoscaler env cached kind ns name).messages
          = [some (hpaConflictMsg kind name)] ∧
      (l1 ++ targ :: l2).find? (hpaMatches kind name) = some targ ∧
      targ.Spec.ScaleTargetRef.Name = name ∧
      strLower targ.Spec.ScaleTargetRef.Kind = strLower kind) ∧
    (∀ hpas, env.hpaList ns = Except.ok hpas →
      (∀ hpa ∈ hpas, hpaMatches kind name hpa = false) →
      (VerifyNoHorizontalPodAutoscaler env cached kind ns name).messages = [none]) ∧
    (∀ k2 targ, strLower k2 = strLower kind →
      targ.Spec.ScaleTargetRef.Name = name →
      targ.Spec.ScaleTargetRef.Kind = k2 →
      hpaMatches kind name targ = true) := by
  refine ⟨?_, ?_, ?_⟩
  · intro l1 targ l2 hlist h1 hm
    have hfind := find?_first (hpaMatches kind name) l1 targ l2 h1 hm
    have hparts := hm
    simp only [hpaMatches, eqFold, Bool.and_eq_true, beq_iff_eq] at hparts
    refine ⟨?_, hfind, hparts.2, hparts.1⟩
    simp [VerifyNoHorizontalPodAutoscaler, runGetClient, hclient, hlist, hfind]
  · intro hpas hlist hnone
    have hfind : hpas.find? (hpaMatches kind name) = none :=
      List.find?_eq_none.mpr (fun x hx => by simp [hnone x hx])
    simp [VerifyNoHorizontalPodAutoscaler, runGetClient, hclient, hlist, hfind]
  · intro k2 targ hlow hname hkind2
    simp [hpaMatches, eqFold, hkind2, hname, hlow]

/-- C4 witness: with policies targeting `other`, a case-differing
`statefulset/agents`, and a later `StatefulSet/agents`, the scan reports the
conflict and finds the case-differing first match. -/
theorem VerifyNoHPA_first_match_witness :
    (VerifyNoHorizontalPodAutoscaler hpaEnv (some ⟨7⟩) "StatefulSet" "ns" "agents").messages
        = [some (hpaConflictMsg "StatefulSet" "agents")] ∧
    ([hpaFor "StatefulSet" "other"] ++ hpaFor "statefulset" "agents"
        :: [hpaFor "StatefulSet" "agents"]).find? (hpaMatches "StatefulSet" "agents")
      = some (hpaFor "statefulset" "agents") := by
  have h := (VerifyNoHPA_first_match hpaEnv (some ⟨7⟩) ⟨7⟩ "StatefulSet" "ns" "agents" rfl).1
    [hpaFor "StatefulSet" "other"] (hpaFor "statefulset" "agents")
    [hpaFor "StatefulSet" "agents"] rfl (by decide) (by decide)
  exact ⟨h.1, h.2.1⟩

end AzpAgentAutoscaler
